import Mathlib

/-!
Shallow embedding of the PhiloTrans front-end core (request shaping, response
interpretation, file import, and export formatting), translated from:
  - src/unnamed/part_001 (the gemini service: translateContent, defineTerm,
    analyzeImage, generatePhilosophicalImage)
  - src/components/TranslationPanel.tsx (handleTranslate, handleFileSelect,
    handleDownload, term-lookup display)
  - src/components/ImageGenerationPanel.tsx (handleGenerate)
  - src/unnamed/part_000 (ImageAnalysisPanel.handleAnalyze)
  - src/constants.ts (MODELS, PROMPTS)
Network calls and browser I/O are abstracted: the model reply fields the code
reads (text, grounding chunks, content parts) are inputs to the interpreter
functions, and file contents delivered by the browser are fields of the
selected-file record.
-/

namespace PhiloTrans

/-! ## JS string primitives

The handlers use JavaScript string operations (`trim`, `split('\n')`,
`startsWith`, case-insensitive suffix regexes). They are modelled here as
structural recursions over the character list of a `String`, so that every
definition evaluates inside the kernel. -/

/-- `s.trim()`: strip leading and trailing whitespace. -/
def jsTrim (s : String) : String :=
  ⟨((s.data.dropWhile Char.isWhitespace).reverse.dropWhile Char.isWhitespace).reverse⟩

/-- Character-list core of `s.split(c)`: always returns at least one group,
splitting at every occurrence of `c`. -/
def splitCharsOn (c : Char) : List Char → List (List Char)
  | [] => [[]]
  | a :: rest =>
      match splitCharsOn c rest with
      | [] => if a = c then [[], []] else [[a]]
      | g :: gs => if a = c then [] :: g :: gs else (a :: g) :: gs

/-- `s.split(c)` for a one-character separator, as in `output.split('\n')`. -/
def jsSplit (s : String) (c : Char) : List String :=
  (splitCharsOn c s.data).map String.mk

/-- Leading-match test on character lists. -/
def charsLead : List Char → List Char → Bool
  | [], _ => true
  | _ :: _, [] => false
  | a :: ps, b :: cs => a = b && charsLead ps cs

/-- `s.startsWith(p)`. -/
def jsStartsWith (s p : String) : Bool := charsLead p.data s.data

/-- ASCII lower-casing of one character, modelling the `/i` regex flag on the
ASCII file suffixes the code matches. -/
def lowerChar (c : Char) : Char :=
  if 'A' ≤ c ∧ c ≤ 'Z' then Char.ofNat (c.toNat + 32) else c

/-- Case-insensitive `name.match(/suffix$/i)`: does `s` end with `p`, ignoring
ASCII case? -/
def jsEndsWithCI (s p : String) : Bool :=
  charsLead ((p.data.map lowerChar).reverse) ((s.data.map lowerChar).reverse)

/-! ## Registry: src/constants.ts -/

def MODELS_TRANSLATION_FAST : String := "gemini-2.5-flash-lite-latest"
def MODELS_TRANSLATION_DEEP : String := "gemini-3-pro-preview"
def MODELS_ANALYSIS : String := "gemini-3-pro-preview"
def MODELS_IMAGE_GEN : String := "gemini-3-pro-image-preview"
def MODELS_TERM_SEARCH : String := "gemini-2.5-flash"

def PROMPTS_SYSTEM_TRANSLATOR : String :=
  "You are a world-class translator of philosophical literary texts, specifically focusing on English-Turkish translation. \nYour goal is to preserve the profound meaning of the text and the precise meaning of philosophical terms. \nIf a term has multiple interpretations, choose the one fitting the context best or provide a brief translator\x27s note.\nEnsure the tone is academic, literary, and respectful of the source material."

/-! ## Modes and per-action guards

Each user action checks a guard before invoking the network:
  - TranslationPanel.handleTranslate (fast/deep translate):
      `if (!input.trim() && !attachment) return;`
  - ImageAnalysisPanel.handleAnalyze: `if (!selectedFile) return;`
  - ImageGenerationPanel.handleGenerate: `if (!prompt.trim()) return;`
  - TranslationPanel.handleDefineTerm: `if (!termQuery.trim()) return;`
`guardAllows m text att = true` means the handler proceeds to the API call. -/

inductive Mode where
  | fastTranslate
  | deepTranslate
  | analyze
  | generateImage
  | termLookup
deriving DecidableEq, Repr

def guardAllows (m : Mode) (text : String) (hasAttachment : Bool) : Bool :=
  match m with
  | .fastTranslate => !(jsTrim text = "") || hasAttachment
  | .deepTranslate => !(jsTrim text = "") || hasAttachment
  | .analyze => hasAttachment
  | .generateImage => !(jsTrim text = "")
  | .termLookup => !(jsTrim text = "")

/-! ## Request building: translateContent (src/unnamed/part_001, lines 16-63) -/

inductive TranslationSpeed where
  | fast
  | deep
deriving DecidableEq, Repr

structure ServiceAttachment where
  mimeType : String
  data : String
deriving DecidableEq, Repr

inductive ContentPart where
  | inlineData (mimeType : String) (data : String)
  | textPart (s : String)
deriving DecidableEq, Repr

structure RequestConfig where
  systemInstruction : Option String
  thinkingBudget : Option Nat
deriving DecidableEq, Repr

structure TranslateRequest where
  model : String
  contents : List ContentPart
  config : RequestConfig
deriving DecidableEq, Repr

def translateRequest (text : String) (attachment : Option ServiceAttachment)
    (speed : TranslationSpeed) : TranslateRequest :=
  let isDeep := speed = TranslationSpeed.deep
  let model := if isDeep then MODELS_TRANSLATION_DEEP else MODELS_TRANSLATION_FAST
  let config : RequestConfig :=
    { systemInstruction := some PROMPTS_SYSTEM_TRANSLATOR
      thinkingBudget := if isDeep then some 32768 else none }
  let contents :=
    match attachment with
    | some att =>
        [ContentPart.inlineData att.mimeType att.data,
         ContentPart.textPart
           ("Translate the attached document from English to Turkish (or vice versa based on detection). Preserve philosophical nuance.\n\nContext/Instructions from user: " ++ text)]
    | none =>
        [ContentPart.textPart
           ("Translate the following text from English to Turkish (or vice versa based on detection). Preserve philosophical nuance.\n\n" ++ text)]
  { model := model, contents := contents, config := config }

/-- `response.text || "Translation failed."` (part_001, line 66): the JS
fallback fires when the text is undefined or the empty string (both falsy). -/
def interpretTranslationText (respText : Option String) : String :=
  match respText with
  | some t => if t = "" then "Translation failed." else t
  | none => "Translation failed."

/-- `response.text || "Analysis failed."` (part_001, line 149). -/
def interpretAnalysisText (respText : Option String) : String :=
  match respText with
  | some t => if t = "" then "Analysis failed." else t
  | none => "Analysis failed."

/-! ## Term lookup grounding URLs: defineTerm (part_001, lines 90-98) and the
display cap in TranslationPanel.tsx (line 323, `urls.slice(0, 3)`). -/

structure WebInfo where
  uri : Option String
deriving DecidableEq, Repr

structure GroundingChunk where
  web : Option WebInfo
deriving DecidableEq, Repr

/-- `groundingChunks.map(c => c.web?.uri).filter(u => !!u)`: the truthiness
filter drops undefined, null, and the empty string. -/
def extractTermUrls (chunks : List GroundingChunk) : List String :=
  (chunks.map (fun c => c.web.bind WebInfo.uri)).filterMap
    (fun u => match u with
      | some s => if s = "" then none else some s
      | none => none)

/-- The list the panel renders: `termDefinition.urls.slice(0, 3)`. -/
def displayTermUrls (chunks : List GroundingChunk) : List String :=
  (extractTermUrls chunks).take 3

/-- Reference recursion used to state order-preservation of the extraction:
walk the chunks in order, keeping each non-empty present URI. -/
def collectUris : List GroundingChunk → List String
  | [] => []
  | c :: rest =>
      match c.web.bind WebInfo.uri with
      | some u => if u = "" then collectUris rest else u :: collectUris rest
      | none => collectUris rest

/-! ## Image generation extraction: generatePhilosophicalImage
(part_001, lines 186-191). -/

inductive GenPart where
  | inline (mimeType : Option String) (data : String)
  | textOnly (s : String)
deriving DecidableEq, Repr

def GenPart.hasInlineData : GenPart → Bool
  | .inline _ _ => true
  | .textOnly _ => false

/-- `data:${part.inlineData.mimeType || 'image/png'};base64,${part.inlineData.data}`:
the mime type falls back to image/png when undefined or empty (falsy). -/
def imageHandle (mimeType : Option String) (data : String) : String :=
  let mt :=
    match mimeType with
    | some s => if s = "" then "image/png" else s
    | none => "image/png"
  "data:" ++ mt ++ ";base64," ++ data

/-- The for-loop over `response.candidates?.[0]?.content?.parts`: return a
handle from the first part with inlineData; otherwise
`throw new Error("No image generated.")`. -/
def extractGeneratedImage : List GenPart → Except String String
  | [] => .error "No image generated."
  | .inline mt d :: _ => .ok (imageHandle mt d)
  | .textOnly _ :: rest => extractGeneratedImage rest

/-! ## File import: TranslationPanel.handleFileSelect (lines 58-111) -/

structure Attachment where
  data : String
  mimeType : String
  name : String
deriving DecidableEq, Repr

inductive SourceFormat where
  | text
  | pdf
  | docx
deriving DecidableEq, Repr

structure PanelState where
  input : String
  attachment : Option Attachment
  sourceFormat : SourceFormat
deriving DecidableEq, Repr

/-- A user-selected file as the browser boundary delivers it. `dataUrl` is the
FileReader.readAsDataURL result, `extractedText` the mammoth raw-text
extraction, `textContent` the file.text() result; `arrayBufferOk` and
`extractOk` model the try-block around the DOCX read not throwing, and
`mammothReady` models `window.mammoth` being present. -/
structure SelectedFile where
  name : String
  mimeType : String
  dataUrl : String
  extractedText : String
  textContent : String
  arrayBufferOk : Bool
  mammothReady : Bool
  extractOk : Bool
deriving DecidableEq, Repr

inductive ImportOutcome where
  | noFile
  | attached
  | textImported
  | docxNotReady
  | docxFailed
  | rejected
deriving DecidableEq, Repr

/-- `file.name.match(/\.docx$/i)` -/
def isDocxName (name : String) : Bool := jsEndsWithCI name ".docx"

/-- `file.name.match(/\.(txt|md|json)$/i)` -/
def isTextFileName (name : String) : Bool :=
  jsEndsWithCI name ".txt" || jsEndsWithCI name ".md" || jsEndsWithCI name ".json"

/-- Lines 62-65: the source-format detection run on every selected file,
before the per-type branching. -/
def detectSourceFormat (f : SelectedFile) : SourceFormat :=
  if f.mimeType = "application/pdf" then .pdf
  else if isDocxName f.name then .docx
  else .text

/-- handleFileSelect as a state transformer. `none` models
`e.target.files?.[0]` being absent (`if (!file) return;`). The alert calls of
the rejection branches are reflected in the outcome tag; they change no state. -/
def handleFileSelect (st : PanelState) (file : Option SelectedFile) :
    PanelState × ImportOutcome :=
  match file with
  | none => (st, .noFile)
  | some f =>
    let st1 : PanelState := { st with sourceFormat := detectSourceFormat f }
    let att : Attachment := { data := f.dataUrl, mimeType := f.mimeType, name := f.name }
    if f.mimeType = "application/pdf" || jsStartsWith f.mimeType "image/" then
      ({ st1 with attachment := some att, input := "" }, .attached)
    else if isDocxName f.name then
      if f.arrayBufferOk then
        if f.mammothReady then
          if f.extractOk then
            ({ st1 with input := f.extractedText, attachment := none, sourceFormat := .docx },
             .textImported)
          else (st1, .docxFailed)
        else (st1, .docxNotReady)
      else (st1, .docxFailed)
    else if jsStartsWith f.mimeType "text/" || isTextFileName f.name then
      ({ st1 with input := f.textContent, attachment := none }, .textImported)
    else (st1, .rejected)

/-! ## Export formatting: handleDownload (TranslationPanel.tsx, lines 118-172) -/

structure DocxParagraph where
  text : String
  spacingAfter : Nat
deriving DecidableEq, Repr

structure DocxDocument where
  sections : List (List DocxParagraph)
deriving DecidableEq, Repr

/-- Lines 123-138: `output.split('\n').map(line => new Paragraph({children:
[new TextRun(line)], spacing: {after: 200}}))` assembled into one section. -/
def buildDocxDocument (output : String) : DocxDocument :=
  { sections := [(jsSplit output '\n').map
      (fun line => { text := line, spacingAfter := 200 })] }

structure PdfStyle where
  fontSize : Nat
  bold : Option Bool
  lineHeight : Option ℚ
  margin : Option (List Nat)
deriving DecidableEq, Repr

structure PdfBlock where
  text : String
  style : String
deriving DecidableEq, Repr

structure PdfDocDefinition where
  content : List PdfBlock
  headerStyle : PdfStyle
  bodyStyle : PdfStyle
deriving DecidableEq, Repr

/-- Lines 144-156: the pdfMake document definition with a fixed header block
and one body block carrying the whole output. -/
def pdfDocDefinition (output : String) : PdfDocDefinition :=
  { content := [{ text := "Translation", style := "header" },
                { text := output, style := "body" }]
    headerStyle := { fontSize := 18, bold := some true, lineHeight := none,
                     margin := some [0, 0, 0, 10] }
    bodyStyle := { fontSize := 12, bold := none, lineHeight := some (3 / 2 : ℚ),
                   margin := none } }

/-! Concrete values used by the corrected claims. -/

/-- The grounding payload of the term-lookup test vector: entries
a, null, a, b, c, d. -/
def c1Chunks : List GroundingChunk :=
  [{ web := some { uri := some "https://a" } },
   { web := some { uri := none } },
   { web := some { uri := some "https://a" } },
   { web := some { uri := some "https://b" } },
   { web := some { uri := some "https://c" } },
   { web := some { uri := some "https://d" } }]

/-- A session that already detected a PDF source, about to be offered an
unsupported file. -/
def c5State : PanelState :=
  { input := "Sein und Zeit", attachment := none, sourceFormat := .pdf }

/-- An unrecognized file: extension .xyz, generic binary media type. -/
def c5File : SelectedFile :=
  { name := "notes.xyz", mimeType := "application/octet-stream", dataUrl := "",
    extractedText := "", textContent := "", arrayBufferOk := true,
    mammothReady := true, extractOk := true }

/-- A session that already detected a PDF source, for the no-file case. -/
def c9State : PanelState :=
  { input := "", attachment := none, sourceFormat := .pdf }

/-- A typed-text session used to exercise the import branches. -/
def cStateTyped : PanelState :=
  { input := "Dasein", attachment := none, sourceFormat := .text }

/-- A PNG image file offered for import. -/
def cFilePng : SelectedFile :=
  { name := "img.png", mimeType := "image/png", dataUrl := "data:image/png;base64,AA",
    extractedText := "", textContent := "", arrayBufferOk := true,
    mammothReady := true, extractOk := true }

/-- A DOCX file offered for import, with the extraction machinery available. -/
def cFileDocx : SelectedFile :=
  { name := "essay.DOCX", mimeType := "application/zip", dataUrl := "",
    extractedText := "Being and Time", textContent := "", arrayBufferOk := true,
    mammothReady := true, extractOk := true }

/-- A plain-text file offered for import. -/
def cFileTxt : SelectedFile :=
  { name := "notes.txt", mimeType := "text/plain", dataUrl := "",
    extractedText := "", textContent := "raw notes", arrayBufferOk := true,
    mammothReady := true, extractOk := true }

/-! ## Helper lemmas -/

/-- Unfolding of the URL extraction over a cons cell. -/
theorem extractTermUrls_cons (c : GroundingChunk) (rest : List GroundingChunk) :
    extractTermUrls (c :: rest) =
      (match c.web.bind WebInfo.uri with
       | some u => if u = "" then extractTermUrls rest else u :: extractTermUrls rest
       | none => extractTermUrls rest) := by
  simp only [extractTermUrls, List.map_cons, List.filterMap_cons]
  cases c.web.bind WebInfo.uri with
  | none => rfl
  | some u =>
    by_cases hu : u = "" <;> simp [hu]

/-! ## Claim theorems -/

/-- C1 counterexample: on the grounding payload `[a, null, a, b, c, d]` the
URI extraction of `defineTerm` followed by the display cap `slice(0, 3)`
yields `[a, a, b]`, not the claimed `[a, b, c]`: the code never deduplicates,
so the duplicate of `a` counts toward the cap of three. -/
theorem c1_displayUrls_counterexample :
    displayTermUrls c1Chunks = ["https://a", "https://a", "https://b"] ∧
    displayTermUrls c1Chunks ≠ ["https://a", "https://b", "https://c"] := by
  decide

/-- C1 (amended): the Response Interpreter drops entries with no URI (and
empty URIs, which are falsy), preserves encounter order — the extraction
equals the in-order walk `collectUris` — and the display shows the first
three collected URLs with no deduplication, so the test payload yields
`[a, a, b]`. -/
theorem c1_displayUrls_amended :
    (∀ cs : List GroundingChunk, extractTermUrls cs = collectUris cs) ∧
    (∀ cs : List GroundingChunk, displayTermUrls cs = (collectUris cs).take 3) ∧
    displayTermUrls c1Chunks = ["https://a", "https://a", "https://b"] := by
  have key : ∀ cs : List GroundingChunk, extractTermUrls cs = collectUris cs := by
    intro cs
    induction cs with
    | nil => rfl
    | cons c rest ih =>
      rw [extractTermUrls_cons]
      cases h : c.web.bind WebInfo.uri with
      | none => simp [collectUris, h, ih]
      | some u =>
        by_cases hu : u = "" <;> simp [collectUris, h, hu, ih]
  refine ⟨key, fun cs => ?_, by decide⟩
  rw [displayTermUrls, key]

/-- C2: for every mode, with text whose trim is empty and no attachment, the
per-action guard refuses, so the handler returns before any network call. -/
theorem c2_emptyInput_blocked (m : Mode) (text : String)
    (h : jsTrim text = "") : guardAllows m text false = false := by
  cases m <;> simp [guardAllows, h]

/-- C2 witness: whitespace-only input is blocked in a concrete mode. -/
theorem c2_emptyInput_blocked_witness :
    jsTrim "  " = "" ∧ guardAllows Mode.generateImage "  " false = false :=
  ⟨by decide, c2_emptyInput_blocked Mode.generateImage "  " (by decide)⟩

/-- C3: the DOCX export builds a single-section document whose paragraph
blocks are exactly the newline-split lines of the text, each with trailing
spacing 200; on `"Line1\nLine2"` that is exactly two paragraph blocks carrying
the respective lines. -/
theorem c3_docxExport_paragraphs :
    (∀ t : String,
      (buildDocxDocument t).sections.length = 1 ∧
      (buildDocxDocument t).sections.map (List.map DocxParagraph.text)
        = [jsSplit t '\n'] ∧
      (buildDocxDocument t).sections.map (List.map DocxParagraph.spacingAfter)
        = [(jsSplit t '\n').map (fun _ => 200)]) ∧
    (buildDocxDocument "Line1\nLine2").sections =
      [[{ text := "Line1", spacingAfter := 200 },
        { text := "Line2", spacingAfter := 200 }]] := by
  refine ⟨fun t => ⟨rfl, ?_, ?_⟩, by decide⟩ <;>
    simp [buildDocxDocument, Function.comp_def]

/-- C4: the PDF export builds a paginated-document definition whose content is
the fixed bold size-18 header block `"Translation"` followed by exactly one
body block carrying the whole text at size 12 and line-height 3/2; on
`"Hello\nWorld"` the body stays one block containing the embedded newline. -/
theorem c4_pdfExport_structure :
    (∀ t : String,
      (pdfDocDefinition t).content =
        [{ text := "Translation", style := "header" }, { text := t, style := "body" }] ∧
      (pdfDocDefinition t).content.length = 2 ∧
      (pdfDocDefinition t).headerStyle.fontSize = 18 ∧
      (pdfDocDefinition t).headerStyle.bold = some true ∧
      (pdfDocDefinition t).bodyStyle.fontSize = 12 ∧
      (pdfDocDefinition t).bodyStyle.lineHeight = some (3 / 2 : ℚ) ∧
      (pdfDocDefinition t).bodyStyle.fontSize < (pdfDocDefinition t).headerStyle.fontSize) ∧
    (pdfDocDefinition "Hello\nWorld").content.map PdfBlock.text
      = ["Translation", "Hello\nWorld"] := by
  exact ⟨fun t => ⟨rfl, rfl, rfl, rfl, rfl, rfl, by norm_num [pdfDocDefinition]⟩, by decide⟩

/-- C5 counterexample: offering the unsupported file `notes.xyz` to a session
that had detected a PDF source is rejected, yet the stored source format
changes from pdf to text, because detection runs before the type check. The
claim that no part of the session state changes is therefore false. -/
theorem c5_unsupportedImport_counterexample :
    (handleFileSelect c5State (some c5File)).2 = ImportOutcome.rejected ∧
    c5State.sourceFormat = SourceFormat.pdf ∧
    (handleFileSelect c5State (some c5File)).1.sourceFormat = SourceFormat.text ∧
    (handleFileSelect c5State (some c5File)).1 ≠ c5State := by
  decide

/-- C5 (amended): a file of unrecognized type and extension is rejected with a
user-facing notice, no Attachment is produced and the text input is unchanged,
but the detected source format is recomputed before the type check and is
reset to plain-text, so it can differ from its previous value. -/
theorem c5_unsupportedImport_amended (st : PanelState) (f : SelectedFile)
    (h1 : f.mimeType ≠ "application/pdf")
    (h2 : jsStartsWith f.mimeType "image/" = false)
    (h3 : isDocxName f.name = false)
    (h4 : jsStartsWith f.mimeType "text/" = false)
    (h5 : isTextFileName f.name = false) :
    handleFileSelect st (some f)
      = ({ st with sourceFormat := SourceFormat.text }, ImportOutcome.rejected) := by
  simp [handleFileSelect, detectSourceFormat, h1, h2, h3, h4, h5]

/-- C5 witness: the amended rejection behavior at the concrete .xyz file. -/
theorem c5_unsupportedImport_amended_witness :
    handleFileSelect c5State (some c5File)
      = ({ c5State with sourceFormat := SourceFormat.text }, ImportOutcome.rejected) :=
  c5_unsupportedImport_amended c5State c5File (by decide) (by decide) (by decide)
    (by decide) (by decide)

/-- C6: for identical text and attachment, the deep-translate request always
carries the thinking budget 32768 and the fast-translate request never carries
one; both share the translator system instruction and use the distinct fast
and deep model identifiers. -/
theorem c6_thinkingBudget_models (text : String)
    (attachment : Option ServiceAttachment) :
    (translateRequest text attachment .deep).config.thinkingBudget = some 32768 ∧
    (translateRequest text attachment .fast).config.thinkingBudget = none ∧
    (translateRequest text attachment .deep).config.systemInstruction
      = some PROMPTS_SYSTEM_TRANSLATOR ∧
    (translateRequest text attachment .fast).config.systemInstruction
      = some PROMPTS_SYSTEM_TRANSLATOR ∧
    (translateRequest text attachment .deep).model = MODELS_TRANSLATION_DEEP ∧
    (translateRequest text attachment .fast).model = MODELS_TRANSLATION_FAST ∧
    (translateRequest text attachment .deep).model
      ≠ (translateRequest text attachment .fast).model := by
  refine ⟨rfl, rfl, rfl, rfl, rfl, rfl, ?_⟩
  show MODELS_TRANSLATION_DEEP ≠ MODELS_TRANSLATION_FAST
  decide

/-- C7: the generate-image interpreter scans the reply parts in order and
returns the handle composed from the media type and bytes of the first part
bearing inline data; when no part carries inline data it fails with the
dedicated hard error "No image generated.", a value distinct from any
rethrown network failure. -/
theorem c7_imageExtraction :
    (∀ (pre : List GenPart) (mt : Option String) (d : String) (post : List GenPart),
      (∀ p ∈ pre, p.hasInlineData = false) →
      extractGeneratedImage (pre ++ GenPart.inline mt d :: post)
        = .ok (imageHandle mt d)) ∧
    (∀ parts : List GenPart, (∀ p ∈ parts, p.hasInlineData = false) →
      extractGeneratedImage parts = .error "No image generated.") := by
  constructor
  · intro pre mt d post h
    induction pre with
    | nil => rfl
    | cons p rest ih =>
      cases p with
      | inline m dd =>
        exact absurd (h _ (List.mem_cons_self _ _)) (by simp [GenPart.hasInlineData])
      | textOnly s =>
        simpa [extractGeneratedImage] using
          ih (fun q hq => h q (List.mem_cons_of_mem _ hq))
  · intro parts h
    induction parts with
    | nil => rfl
    | cons p rest ih =>
      cases p with
      | inline m dd =>
        exact absurd (h _ (List.mem_cons_self _ _)) (by simp [GenPart.hasInlineData])
      | textOnly s =>
        simpa [extractGeneratedImage] using
          ih (fun q hq => h q (List.mem_cons_of_mem _ hq))

/-- C7 witness: extraction at a concrete reply with one inline part, and the
hard error at a concrete reply with none. -/
theorem c7_imageExtraction_witness :
    extractGeneratedImage
        [GenPart.textOnly "x", GenPart.inline (some "image/jpeg") "QUJD"]
      = .ok (imageHandle (some "image/jpeg") "QUJD") ∧
    extractGeneratedImage [GenPart.textOnly "x"] = .error "No image generated." :=
  ⟨c7_imageExtraction.1 [GenPart.textOnly "x"] (some "image/jpeg") "QUJD" []
      (by decide),
   c7_imageExtraction.2 [GenPart.textOnly "x"] (by decide)⟩

/-- C8: the translate and analyze interpreters always return some string:
given an absent or empty primary text they return the fallback failure
string, and otherwise they return the primary text itself. -/
theorem c8_textFallback :
    interpretTranslationText none = "Translation failed." ∧
    interpretTranslationText (some "") = "Translation failed." ∧
    (∀ t : String, t ≠ "" → interpretTranslationText (some t) = t) ∧
    interpretAnalysisText none = "Analysis failed." ∧
    interpretAnalysisText (some "") = "Analysis failed." ∧
    (∀ t : String, t ≠ "" → interpretAnalysisText (some t) = t) := by
  refine ⟨rfl, rfl, fun t ht => ?_, rfl, rfl, fun t ht => ?_⟩ <;>
    simp [interpretTranslationText, interpretAnalysisText, ht]

/-- C8 witness: non-empty primary text passes through both interpreters. -/
theorem c8_textFallback_witness :
    interpretTranslationText (some "Merhaba") = "Merhaba" ∧
    interpretAnalysisText (some "Merhaba") = "Merhaba" :=
  ⟨c8_textFallback.2.2.1 "Merhaba" (by decide),
   c8_textFallback.2.2.2.2.2 "Merhaba" (by decide)⟩

/-- C9 counterexample: with no file selected the import handler returns
without touching the state, so a session that had detected a PDF source keeps
source format pdf — the claim that no file at all maps to plain-text is
false. -/
theorem c9_detection_counterexample :
    handleFileSelect c9State none = (c9State, ImportOutcome.noFile) ∧
    (handleFileSelect c9State none).1.sourceFormat = SourceFormat.pdf ∧
    (handleFileSelect c9State none).1.sourceFormat ≠ SourceFormat.text := by
  decide

/-- C9 (amended): on a present file the stored source format always becomes
`detectSourceFormat`: PDF media type maps to pdf (taking precedence over a
.docx filename), otherwise a .docx filename (case-insensitive) maps to docx,
and everything else maps to text; with no file at all the handler returns the
state unchanged instead of resetting the format to plain-text. -/
theorem c9_detection_amended :
    (∀ (st : PanelState) (f : SelectedFile),
      (handleFileSelect st (some f)).1.sourceFormat = detectSourceFormat f) ∧
    (∀ f : SelectedFile, f.mimeType = "application/pdf" →
      detectSourceFormat f = SourceFormat.pdf) ∧
    (∀ f : SelectedFile, f.mimeType ≠ "application/pdf" →
      isDocxName f.name = true → detectSourceFormat f = SourceFormat.docx) ∧
    (∀ f : SelectedFile, f.mimeType ≠ "application/pdf" →
      isDocxName f.name = false → detectSourceFormat f = SourceFormat.text) ∧
    (∀ st : PanelState, handleFileSelect st none = (st, ImportOutcome.noFile)) := by
  refine ⟨fun st f => ?_, fun f h => by simp [detectSourceFormat, h],
    fun f h1 h2 => by simp [detectSourceFormat, h1, h2],
    fun f h1 h2 => by simp [detectSourceFormat, h1, h2], fun st => rfl⟩
  simp only [handleFileSelect]
  split_ifs with h1 h2 h3 h4 h5 <;> simp_all [detectSourceFormat]

/-- C9 witness: the amended detection at concrete files — a PDF-typed file
with a .docx name detects pdf, a .docx name with a non-pdf type detects docx,
a .txt name detects text, and the no-file case leaves a pdf session as is. -/
theorem c9_detection_amended_witness :
    detectSourceFormat { cFileDocx with mimeType := "application/pdf" }
      = SourceFormat.pdf ∧
    detectSourceFormat cFileDocx = SourceFormat.docx ∧
    detectSourceFormat cFileTxt = SourceFormat.text ∧
    handleFileSelect c5State none = (c5State, ImportOutcome.noFile) :=
  ⟨c9_detection_amended.2.1 _ (by decide),
   c9_detection_amended.2.2.1 _ (by decide) (by decide),
   c9_detection_amended.2.2.2.1 _ (by decide) (by decide),
   c9_detection_amended.2.2.2.2 c5State⟩

/-- C10: successful imports keep file-derived content exclusive — importing a
PDF or image attaches the file and clears the text input; importing a DOCX
(success path) or a text file replaces the input with the extracted text and
clears the attachment; in general any attached outcome leaves the input empty
and any text-imported outcome leaves no attachment. -/
theorem c10_import_exclusivity (st : PanelState) (f : SelectedFile) :
    ((f.mimeType = "application/pdf" ∨ jsStartsWith f.mimeType "image/" = true) →
      (handleFileSelect st (some f)).1.input = "" ∧
      (handleFileSelect st (some f)).1.attachment
        = some { data := f.dataUrl, mimeType := f.mimeType, name := f.name }) ∧
    ((handleFileSelect st (some f)).2 = ImportOutcome.textImported →
      (handleFileSelect st (some f)).1.attachment = none) ∧
    ((handleFileSelect st (some f)).2 = ImportOutcome.attached →
      (handleFileSelect st (some f)).1.input = "") ∧
    (f.mimeType ≠ "application/pdf" → jsStartsWith f.mimeType "image/" = false →
      isDocxName f.name = true → f.arrayBufferOk = true → f.mammothReady = true →
      f.extractOk = true →
      (handleFileSelect st (some f)).1.input = f.extractedText ∧
      (handleFileSelect st (some f)).1.attachment = none) ∧
    (f.mimeType ≠ "application/pdf" → jsStartsWith f.mimeType "image/" = false →
      isDocxName f.name = false →
      (jsStartsWith f.mimeType "text/" = true ∨ isTextFileName f.name = true) →
      (handleFileSelect st (some f)).1.input = f.textContent ∧
      (handleFileSelect st (some f)).1.attachment = none) := by
  simp only [handleFileSelect]
  split_ifs <;>
    refine ⟨fun ha => ?_, fun ht => ?_, fun hb => ?_,
      fun n1 n2 n3 n4 n5 n6 => ?_, fun m1 m2 m3 m4 => ?_⟩ <;>
    simp_all

/-- C10 witness: the exclusivity at concrete imports of a PNG, a DOCX, and a
TXT file. -/
theorem c10_import_exclusivity_witness :
    ((handleFileSelect cStateTyped (some cFilePng)).1.input = "" ∧
     (handleFileSelect cStateTyped (some cFilePng)).1.attachment
       = some { data := cFilePng.dataUrl, mimeType := cFilePng.mimeType,
                name := cFilePng.name }) ∧
    ((handleFileSelect cStateTyped (some cFileDocx)).1.input
        = cFileDocx.extractedText ∧
     (handleFileSelect cStateTyped (some cFileDocx)).1.attachment = none) ∧
    ((handleFileSelect cStateTyped (some cFileTxt)).1.input
        = cFileTxt.textContent ∧
     (handleFileSelect cStateTyped (some cFileTxt)).1.attachment = none) :=
  ⟨(c10_import_exclusivity cStateTyped cFilePng).1 (Or.inr (by decide)),
   (c10_import_exclusivity cStateTyped cFileDocx).2.2.2.1 (by decide) (by decide)
     (by decide) (by decide) (by decide) (by decide),
   (c10_import_exclusivity cStateTyped cFileTxt).2.2.2.2 (by decide) (by decide)
     (by decide) (Or.inl (by decide))⟩

end PhiloTrans
